import Mathlib

-- Shallow embedding of the outcome-classification and metrics-aggregation
-- pipeline of src/app.py (call-center analytics dashboard).
--
-- Modelling conventions:
--  * A pandas DataFrame built from `sheet.get_all_records()` is a list of
--    rows plus a set of present columns.  `Cols` records which recognized
--    columns exist in the source; a cell value is `Option String`, where
--    `none` stands for a missing key / NaN cell.
--  * `pd.to_datetime(..., errors="coerce").dt.date` is modelled by
--    `parseDate`: an ISO `YYYY-MM-DD` prefix parse that yields `none` on
--    malformed input (NaT), encoding a calendar date as the naturally
--    ordered number y*10000 + m*100 + d.
--  * NaT/NaN comparison semantics of pandas are made explicit: a `none`
--    date fails both bounds of the date-range mask, `str(NaN)` is "nan",
--    and `pd.notna` on a cell is `Option.isSome` (true for "").

namespace CallDash

/-- Outcome categories produced by the `outcome` row function of src/app.py. -/
inductive Outcome where
  | BOOKED
  | SLOT_UNAVAILABLE
  | CLOSED
  | OTHER
deriving DecidableEq, Repr

/-- A raw row as delivered by the fetch layer: recognized cells only, each
`none` when the key is missing from the row (NaN in the DataFrame). -/
structure RawRow where
  ts_utc : Option String := none
  success : Option String := none
  booking_id : Option String := none
  error_code : Option String := none
  clinic_name : Option String := none
  doctor : Option String := none
deriving DecidableEq, Repr

/-- Which recognized columns exist in the source DataFrame (`"x" in df.columns`). -/
structure Cols where
  hasTs : Bool := false
  hasSuccess : Bool := false
  hasBooking : Bool := false
  hasError : Bool := false
  hasClinic : Bool := false
  hasDoctor : Bool := false
deriving DecidableEq, Repr

/-- A normalized record: the derived columns added by `load_data` alongside the
preserved raw cells.  `success`/`outcome` are `none` exactly when the success
column was absent (the code computes them only under `if "success" in df.columns`). -/
structure Record where
  date : Option Nat := none
  success : Option Bool := none
  outcome : Option Outcome := none
  booking_id : Option String := none
  error_code : Option String := none
  clinic_name : Option String := none
  doctor : Option String := none
deriving DecidableEq, Repr

/-- Numeric value of a decimal digit character. -/
def digitVal (c : Char) : Nat := c.toNat - '0'.toNat

/-- ASCII lower-casing of a string (Python `str.lower` on the ASCII tokens
this pipeline compares). -/
def lowerStr (s : String) : String := String.mk (s.data.map Char.toLower)

/-- ASCII upper-casing of a string (Python `str.upper` on the ASCII error
codes this pipeline compares). -/
def upperStr (s : String) : String := String.mk (s.data.map Char.toUpper)

/-- Models `pd.to_datetime(s, errors="coerce", utc=True).dt.date`: parse an
ISO-8601-like `YYYY-MM-DD` prefix; malformed input coerces to NaT (`none`).
The date is encoded as `y*10000 + m*100 + d`, which orders like calendar dates. -/
def parseDate (s : String) : Option Nat :=
  match s.toList with
  | y1 :: y2 :: y3 :: y4 :: s1 :: m1 :: m2 :: s2 :: d1 :: d2 :: _ =>
    if y1.isDigit && y2.isDigit && y3.isDigit && y4.isDigit
        && (s1 == '-') && m1.isDigit && m2.isDigit && (s2 == '-')
        && d1.isDigit && d2.isDigit then
      let y := ((digitVal y1 * 10 + digitVal y2) * 10 + digitVal y3) * 10 + digitVal y4
      let m := digitVal m1 * 10 + digitVal m2
      let d := digitVal d1 * 10 + digitVal d2
      if 1 ≤ m && m ≤ 12 && 1 ≤ d && d ≤ 31 then
        some (y * 10000 + m * 100 + d)
      else none
    else none
  | _ => none

/-- Embeds `df["success"].astype(str).str.lower().isin(["true", "1", "yes"])`
on one cell: a NaN cell stringifies to "nan", which is not in the token set. -/
def coerceSuccess (cell : Option String) : Bool :=
  match cell with
  | some s => ["true", "1", "yes"].contains (lowerStr s)
  | none => false

/-- Embeds `pd.notna(row.get("booking_id", None))`: false when the column is
absent (the `get` default `None`) or the cell is NaN; true otherwise,
including for an empty-string cell. -/
def bookingNotna (c : Cols) (r : RawRow) : Bool :=
  c.hasBooking && r.booking_id.isSome

/-- Embeds `str(row.get("error_code", ""))` (before the `.upper()` call):
the `get` default is `""` when the column is absent, and a NaN cell
stringifies to "nan". -/
def ecString (c : Cols) (r : RawRow) : String :=
  if c.hasError then
    match r.error_code with
    | some s => s
    | none => "nan"
  else ""

/-- The `outcome` row function of src/app.py (lines 117-125), first match wins. -/
def outcome (success : Bool) (bookingPresent : Bool) (ecRaw : String) : Outcome :=
  if success && bookingPresent then Outcome.BOOKED
  else
    let ec := upperStr ecRaw
    if ec == "SLOT_UNAVAILABLE" || ec == "SLOT_BUSY" then Outcome.SLOT_UNAVAILABLE
    else if ec == "SLOT_CLOSED" then Outcome.CLOSED
    else Outcome.OTHER

/-- The per-row part of the transformations in `load_data` (lines 106-127):
derive `date` when the `ts_utc` column exists, and derive `success` and
`outcome` when the `success` column exists; raw cells pass through. -/
def normalizeRow (c : Cols) (r : RawRow) : Record :=
  let succ := coerceSuccess r.success
  { date := if c.hasTs then r.ts_utc.bind parseDate else none
    success := if c.hasSuccess then some succ else none
    outcome := if c.hasSuccess then
        some (outcome succ (bookingNotna c r) (ecString c r))
      else none
    booking_id := r.booking_id
    error_code := r.error_code
    clinic_name := if c.hasClinic then r.clinic_name else none
    doctor := if c.hasDoctor then r.doctor else none }

/-- The whole-table normalization of `load_data`: rows are transformed
independently, with no cross-row state. -/
def normalize (c : Cols) (rows : List RawRow) : List Record :=
  rows.map (normalizeRow c)

/-- The sidebar filter state: date range plus clinic and doctor selections
(an empty selection list means no restriction, `if clinics:`). -/
structure FilterSpec where
  startDate : Nat := 0
  endDate : Nat := 0
  clinics : List String := []
  doctors : List String := []
deriving DecidableEq, Repr

/-- The per-record filter predicate of lines 173-179.  The date mask runs only
when the `date` column exists; a record with a NaT date fails both comparisons
(`NaT >= start` and `NaT <= end` are both false in pandas), so it is dropped.
`isin` is false on a NaN cell. -/
def keepRecord (c : Cols) (f : FilterSpec) (r : Record) : Bool :=
  (if c.hasTs then
      match r.date with
      | some d => decide (f.startDate ≤ d) && decide (d ≤ f.endDate)
      | none => false
    else true)
  && (if f.clinics.isEmpty then true
      else match r.clinic_name with
        | some s => f.clinics.contains s
        | none => false)
  && (if f.doctors.isEmpty then true
      else match r.doctor with
        | some s => f.doctors.contains s
        | none => false)

/-- The filtered table `q` of lines 172-179: row selection by boolean masks. -/
def applyFilter (c : Cols) (f : FilterSpec) (rs : List Record) : List Record :=
  rs.filter (keepRecord c f)

/-- `AVG_VISIT_VALUE` of line 77. -/
def AVG_VISIT_VALUE : ℚ := 200

/-- `MONTHLY_FEE` of line 78. -/
def MONTHLY_FEE : ℚ := 100

/-- `served_count = int(q.shape[0])` (line 183); also `calls_received` (line 202). -/
def served_count (q : List Record) : Nat := q.length

/-- `booked = int((q["outcome"] == "BOOKED").sum()) if "outcome" in q.columns else 0`
(line 186); the `outcome` column exists exactly when the `success` column did. -/
def booked (c : Cols) (q : List Record) : Nat :=
  if c.hasSuccess then q.countP (fun r => r.outcome == some Outcome.BOOKED) else 0

/-- `recovered_revenue = booked * AVG_VISIT_VALUE` (line 187). -/
def recovered_revenue (b : Nat) : ℚ := (b : ℚ) * AVG_VISIT_VALUE

/-- `net_roi = recovered_revenue - MONTHLY_FEE` (line 188). -/
def net_roi (b : Nat) : ℚ := recovered_revenue b - MONTHLY_FEE

/-- `call_handling_pct = float((q["success"].mean() * 100) if "success" in q.columns and len(q) else 0.0)`
(line 203): the mean of the normalized boolean success column over all filtered rows. -/
def call_handling_pct (c : Cols) (q : List Record) : ℚ :=
  if c.hasSuccess && !q.isEmpty then
    ((q.countP (fun r => r.success == some true) : ℚ) / (q.length : ℚ)) * 100
  else 0

/-- One row of the `trend` table of lines 225-228. -/
structure TrendPoint where
  date : Nat
  attempts : Nat
  booked : Nat
deriving DecidableEq, Repr

/-- Insert a date into a strictly sorted list of distinct dates, keeping it
strictly sorted and duplicate-free. -/
def insertDate (d : Nat) : List Nat → List Nat
  | [] => [d]
  | x :: xs =>
    if d < x then d :: x :: xs
    else if d = x then x :: xs
    else x :: insertDate d xs

/-- The distinct dates of a list, in ascending order: the group keys produced
by `q.groupby("date")` (which sorts keys and drops NaT). -/
def distinctSortedDates (l : List Nat) : List Nat := l.foldr insertDate []

/-- The defined dates of a record list, in order (NaT entries dropped,
as `groupby` does). -/
def recordDates (q : List Record) : List Nat := q.filterMap (fun r => r.date)

/-- The `trend` aggregate of lines 225-228: group the filtered records by
`date` (NaT keys dropped), emit the group size and its BOOKED count, with
group keys ascending as `groupby(sort=True)` produces them. -/
def computeTrend (q : List Record) : List TrendPoint :=
  (distinctSortedDates (recordDates q)).map (fun d =>
    { date := d
      attempts := q.countP (fun r => r.date == some d)
      booked := q.countP (fun r => r.date == some d && r.outcome == some Outcome.BOOKED) })

/-- Modelled from the spec: the claimed `successRatePct` that averages the
coerced success flag only over rows whose raw `success` field was defined,
times 100, with 0.0 when no row defines it.  This mirrors the spec sentence,
for comparison against `call_handling_pct`, which src/app.py actually computes. -/
def successRatePct_spec (raws : List RawRow) : ℚ :=
  let defined := raws.filter (fun r => r.success.isSome)
  if defined.isEmpty then 0
  else ((defined.countP (fun r => coerceSuccess r.success) : ℚ) / (defined.length : ℚ)) * 100

-- Concrete inputs used by counterexamples and witnesses.

/-- Columns of a source with an error-code column but no success column. -/
def colsNoSuccess : Cols := { hasError := true }

/-- A raw row carrying only the error code SLOT_BUSY. -/
def rowSlotBusy : RawRow := { error_code := some "SLOT_BUSY" }

/-- Columns with success, booking and error-code columns present. -/
def colsSBE : Cols := { hasSuccess := true, hasBooking := true, hasError := true }

/-- A raw row with success "true" and an empty-string booking id cell. -/
def rowEmptyBooking : RawRow := { success := some "true", booking_id := some "" }

/-- Columns of a source that has a timestamp column. -/
def colsTs : Cols := { hasTs := true }

/-- A raw row whose timestamp cell does not parse. -/
def rawBadTs : RawRow := { ts_utc := some "not-a-date" }

/-- A wide date-range filter with no clinic or doctor restriction. -/
def fWide : FilterSpec := { startDate := 0, endDate := 99999999 }

/-- A record with an absent (NaT) date. -/
def recNoDate : Record := { date := none }

/-- Columns of a source with only a success column. -/
def colsSuccessOnly : Cols := { hasSuccess := true }

/-- Two raw rows: one with success "true", one with no success cell at all. -/
def rawsHalf : List RawRow := [{ success := some "true" }, {}]

/-- Normalized and (trivially) filtered collection built from `rawsHalf`. -/
def qHalf : List Record := applyFilter colsSuccessOnly {} (normalize colsSuccessOnly rawsHalf)

/-- Three raw rows with success "yes", absent, and "no". -/
def rawsThree : List RawRow := [{ success := some "yes" }, {}, { success := some "no" }]

/-- The four-row scenario of the spec (section 8). -/
def scenarioRows : List RawRow :=
  [ { success := some "true", booking_id := some "A1", error_code := some "" }
  , { success := some "false", error_code := some "SLOT_CLOSED" }
  , { success := some "false", error_code := some "slot_busy" }
  , { success := some "false", error_code := some "" } ]

/-- A one-record collection with a defined date and a BOOKED outcome. -/
def qOneBooked : List Record := [{ date := some 7, outcome := some Outcome.BOOKED }]

/-- The trend point produced by `computeTrend qOneBooked`. -/
def ptOneBooked : TrendPoint := { date := 7, attempts := 1, booked := 1 }

-- Helper lemmas.

/-- Membership in an `insertDate` result. -/
theorem mem_insertDate (a d : Nat) (l : List Nat) :
    a ∈ insertDate d l ↔ a = d ∨ a ∈ l := by
  induction l with
  | nil => simp [insertDate]
  | cons x xs ih =>
    simp only [insertDate]
    by_cases h1 : d < x
    · rw [if_pos h1]
      simp [List.mem_cons]
    · by_cases h2 : d = x
      · rw [if_neg h1, if_pos h2, List.mem_cons]
        subst h2
        tauto
      · rw [if_neg h1, if_neg h2, List.mem_cons, ih, List.mem_cons]
        tauto

/-- Insertion preserves strict sortedness. -/
theorem sorted_insertDate (d : Nat) {l : List Nat} (h : List.Sorted (· < ·) l) :
    List.Sorted (· < ·) (insertDate d l) := by
  induction l with
  | nil => simp [insertDate]
  | cons x xs ih =>
    rw [List.sorted_cons] at h
    obtain ⟨hx, hs⟩ := h
    simp only [insertDate]
    by_cases h1 : d < x
    · rw [if_pos h1, List.sorted_cons]
      refine ⟨?_, List.sorted_cons.mpr ⟨hx, hs⟩⟩
      intro b hb
      rcases List.mem_cons.mp hb with rfl | hb
      · exact h1
      · exact lt_trans h1 (hx b hb)
    · by_cases h2 : d = x
      · rw [if_neg h1, if_pos h2, List.sorted_cons]
        exact ⟨hx, hs⟩
      · rw [if_neg h1, if_neg h2, List.sorted_cons]
        have hxd : x < d := lt_of_le_of_ne (Nat.le_of_not_lt h1) (fun he => h2 he.symm)
        refine ⟨?_, ih hs⟩
        intro b hb
        rcases (mem_insertDate b d xs).mp hb with rfl | hb
        · exact hxd
        · exact hx b hb

/-- The distinct-sorted-dates list is strictly sorted. -/
theorem sorted_distinctSortedDates (l : List Nat) :
    List.Sorted (· < ·) (distinctSortedDates l) := by
  induction l with
  | nil => simp [distinctSortedDates]
  | cons x xs ih => exact sorted_insertDate x ih

/-- The distinct-sorted-dates list has the same members as its input. -/
theorem mem_distinctSortedDates (a : Nat) (l : List Nat) :
    a ∈ distinctSortedDates l ↔ a ∈ l := by
  induction l with
  | nil => simp [distinctSortedDates]
  | cons x xs ih =>
    show a ∈ insertDate x (distinctSortedDates xs) ↔ a ∈ x :: xs
    rw [mem_insertDate, ih, List.mem_cons]

/-- The distinct-sorted-dates list has no duplicates. -/
theorem nodup_distinctSortedDates (l : List Nat) : (distinctSortedDates l).Nodup :=
  (sorted_distinctSortedDates l).nodup

/-- The distinct-sorted-dates list is a permutation of `l.dedup`. -/
theorem perm_dedup_distinctSortedDates (l : List Nat) :
    List.Perm (distinctSortedDates l) l.dedup := by
  rw [List.perm_ext_iff_of_nodup (nodup_distinctSortedDates l) l.nodup_dedup]
  intro a
  rw [mem_distinctSortedDates, List.mem_dedup]

/-- Counting records on a date equals counting that date among the defined dates. -/
theorem countP_date_eq_count (q : List Record) (d : Nat) :
    q.countP (fun r => r.date == some d) = (recordDates q).count d := by
  induction q with
  | nil => rfl
  | cons r q ih =>
    simp only [recordDates, List.filterMap_cons] at ih ⊢
    rw [List.countP_cons]
    cases hr : r.date with
    | none => simp [hr, ih]
    | some x =>
      by_cases hxd : x = d
      · simp [hr, hxd, List.count_cons, ih]
      · simp [hr, hxd, Ne.symm hxd, List.count_cons, ih]

/-- The number of defined dates equals the count of records with a defined date. -/
theorem length_recordDates (q : List Record) :
    (recordDates q).length = q.countP (fun r => r.date.isSome) := by
  induction q with
  | nil => rfl
  | cons r q ih =>
    simp only [recordDates, List.filterMap_cons] at ih ⊢
    cases hr : r.date <;> simp [hr, List.countP_cons, ih]

/-- The `outcome` function returns BOOKED exactly when its first guard fires. -/
theorem outcome_eq_BOOKED_iff (s b : Bool) (e : String) :
    outcome s b e = Outcome.BOOKED ↔ (s && b) = true := by
  unfold outcome
  cases h1 : (s && b) <;>
    cases h2 : (upperStr e == "SLOT_UNAVAILABLE" || upperStr e == "SLOT_BUSY") <;>
      cases h3 : (upperStr e == "SLOT_CLOSED") <;>
        simp [h2, h3]

-- Claim theorems.

/-- C1 counterexample: when the success column is entirely absent, a raw row
with errorCode SLOT_BUSY is NOT classified at all — its normalized record
carries no outcome, contrary to the claim that it would be SLOT_UNAVAILABLE. -/
theorem C1_counterexample :
    rowSlotBusy.error_code = some "SLOT_BUSY" ∧
    colsNoSuccess.hasSuccess = false ∧
    (normalizeRow colsNoSuccess rowSlotBusy).outcome = none ∧
    ¬ (normalizeRow colsNoSuccess rowSlotBusy).outcome = some Outcome.SLOT_UNAVAILABLE := by
  refine ⟨rfl, rfl, rfl, ?_⟩
  decide

/-- C1 (amended): outcome classification runs exactly when the success column
is present in the source; when it is absent, every normalized record carries
no outcome at all. -/
theorem C1_theorem : ∀ (c : Cols) (r : RawRow),
    (normalizeRow c r).outcome.isSome = c.hasSuccess := by
  intro c r
  cases hc : c.hasSuccess <;> simp [normalizeRow, hc]

/-- C2 counterexample: a row whose success coerces to true and whose bookingId
cell is the empty string IS classified BOOKED by the code (`pd.notna("")` is
true), contrary to the claim that a non-empty bookingId is required. -/
theorem C2_counterexample :
    coerceSuccess rowEmptyBooking.success = true ∧
    rowEmptyBooking.booking_id = some "" ∧
    (normalizeRow colsSBE rowEmptyBooking).outcome = some Outcome.BOOKED := by
  refine ⟨?_, rfl, ?_⟩ <;> decide

/-- C2 (amended): BOOKED is assigned exactly when success coerces to true AND
the bookingId cell is present in the row (`pd.notna`, which accepts the empty
string); emptiness of the bookingId is not checked. -/
theorem C2_theorem : ∀ (c : Cols) (r : RawRow),
    (normalizeRow c r).outcome = some Outcome.BOOKED ↔
      (c.hasSuccess && (coerceSuccess r.success && bookingNotna c r)) = true := by
  intro c r
  cases hc : c.hasSuccess
  · simp [normalizeRow, hc]
  · simp [normalizeRow, hc, outcome_eq_BOOKED_iff]

/-- C3 counterexample: with the timestamp column present, a record whose
timestamp failed to parse (absent date) IS dropped by the date-range filter,
contrary to the claim that it appears in the filtered output. -/
theorem C3_counterexample :
    (normalizeRow colsTs rawBadTs).date = none ∧
    applyFilter colsTs fWide [normalizeRow colsTs rawBadTs] = [] := by
  refine ⟨rfl, ?_⟩
  decide

/-- C3 (amended): when the timestamp column exists, a record with an absent
date fails the date-range mask and is excluded from the filtered output;
records are exempt from date filtering only when the source has no timestamp
column at all. -/
theorem C3_theorem : ∀ (c : Cols) (f : FilterSpec) (r : Record) (rs : List Record),
    c.hasTs = true → r.date = none →
    keepRecord c f r = false ∧ r ∉ applyFilter c f rs := by
  intro c f r rs hc hd
  have hk : keepRecord c f r = false := by
    simp [keepRecord, hc, hd]
  refine ⟨hk, ?_⟩
  intro hmem
  simp only [applyFilter, List.mem_filter, hk] at hmem
  exact absurd hmem.2 (by simp [hk])

/-- C3 witness: the amended statement instantiated on a concrete record with
an absent date under a source that has the timestamp column. -/
theorem C3_witness :
    colsTs.hasTs = true ∧ recNoDate.date = none ∧
    (keepRecord colsTs fWide recNoDate = false ∧
      recNoDate ∉ applyFilter colsTs fWide [recNoDate]) :=
  ⟨rfl, rfl, C3_theorem colsTs fWide recNoDate [recNoDate] rfl rfl⟩

/-- C4 counterexample: on two rows, one with success "true" and one with no
success cell, the code computes 50% (the absent cell is coerced to false and
counted), while the claimed mean over defined-success records is 100%. -/
theorem C4_counterexample :
    call_handling_pct colsSuccessOnly qHalf = 50 ∧
    successRatePct_spec rawsHalf = 100 ∧
    call_handling_pct colsSuccessOnly qHalf ≠ successRatePct_spec rawsHalf := by
  have h1 : call_handling_pct colsSuccessOnly qHalf = ((1 : Nat) : ℚ) / ((2 : Nat) : ℚ) * 100 := rfl
  have h2 : successRatePct_spec rawsHalf = ((1 : Nat) : ℚ) / ((1 : Nat) : ℚ) * 100 := rfl
  refine ⟨?_, ?_, ?_⟩
  · rw [h1]; norm_num
  · rw [h2]; norm_num
  · rw [h1, h2]; norm_num

/-- C4 (amended): when the success column exists and the collection is
non-empty, the success-rate KPI is the mean of the coerced success flag over
ALL records, times 100 — a record whose raw success cell is absent is coerced
to false and counted, not excluded. -/
theorem C4_theorem : ∀ (c : Cols) (rs : List RawRow),
    c.hasSuccess = true → rs ≠ [] →
    call_handling_pct c (normalize c rs) =
      ((rs.countP (fun row => coerceSuccess row.success) : ℚ) / (rs.length : ℚ)) * 100 := by
  intro c rs hc hne
  have hsucc : ∀ row : RawRow,
      ((normalizeRow c row).success == some true) = coerceSuccess row.success := by
    intro row
    cases hcs : coerceSuccess row.success <;> simp [normalizeRow, hc, hcs]
  have hempty : (rs.map (normalizeRow c)).isEmpty = false := by
    cases rs with
    | nil => exact absurd rfl hne
    | cons a l => rfl
  unfold call_handling_pct normalize
  rw [hc, hempty]
  simp only [Bool.not_false, Bool.and_true, if_true, List.countP_map, List.length_map]
  have hfun : ((fun (r : Record) => r.success == some true) ∘ normalizeRow c) =
      (fun row => coerceSuccess row.success) := by
    funext row
    exact hsucc row
  rw [hfun]

/-- C4 witness: the amended statement instantiated on three rows with success
"yes", absent, and "no", giving one true among three counted rows. -/
theorem C4_witness :
    colsSuccessOnly.hasSuccess = true ∧ rawsThree ≠ [] ∧
    call_handling_pct colsSuccessOnly (normalize colsSuccessOnly rawsThree) =
      ((rawsThree.countP (fun row => coerceSuccess row.success) : ℚ) /
        ((rawsThree.length : Nat) : ℚ)) * 100 :=
  ⟨rfl, by decide, C4_theorem colsSuccessOnly rawsThree rfl (by decide)⟩

/-- C5: outcome classification follows the exact precedence BOOKED, then
SLOT_UNAVAILABLE (error code SLOT_UNAVAILABLE or SLOT_BUSY after upper-casing),
then CLOSED (SLOT_CLOSED after upper-casing), then OTHER, first match wins;
and on the four-row scenario the outcomes are
[BOOKED, CLOSED, SLOT_UNAVAILABLE, OTHER] with bookedCount 1. -/
theorem C5_theorem :
    (normalize colsSBE scenarioRows).map (fun r => r.outcome) =
      [some Outcome.BOOKED, some Outcome.CLOSED, some Outcome.SLOT_UNAVAILABLE,
        some Outcome.OTHER] ∧
    booked colsSBE (normalize colsSBE scenarioRows) = 1 ∧
    (∀ (s b : Bool) (e : String),
      (outcome s b e = Outcome.BOOKED ↔ (s && b) = true) ∧
      (outcome s b e = Outcome.SLOT_UNAVAILABLE ↔
        ((!(s && b)) &&
          (upperStr e == "SLOT_UNAVAILABLE" || upperStr e == "SLOT_BUSY")) = true) ∧
      (outcome s b e = Outcome.CLOSED ↔
        ((!(s && b)) && !(upperStr e == "SLOT_UNAVAILABLE" || upperStr e == "SLOT_BUSY")
          && (upperStr e == "SLOT_CLOSED")) = true) ∧
      (outcome s b e = Outcome.OTHER ↔
        ((!(s && b)) && !(upperStr e == "SLOT_UNAVAILABLE" || upperStr e == "SLOT_BUSY")
          && !(upperStr e == "SLOT_CLOSED")) = true)) := by
  refine ⟨by decide, by decide, ?_⟩
  intro s b e
  unfold outcome
  cases h1 : (s && b) <;>
    cases h2 : (upperStr e == "SLOT_UNAVAILABLE" || upperStr e == "SLOT_BUSY") <;>
      cases h3 : (upperStr e == "SLOT_CLOSED") <;>
        simp [h1, h2, h3]

/-- C6: the trend's dates are strictly ascending (hence duplicate-free), and
the attempts over all trend points sum to the number of records with a
defined date — records with an absent date are excluded from this view only. -/
theorem C6_theorem : ∀ q : List Record,
    List.Sorted (· < ·) ((computeTrend q).map TrendPoint.date) ∧
    ((computeTrend q).map TrendPoint.attempts).sum =
      q.countP (fun r => r.date.isSome) := by
  intro q
  constructor
  · have hmap : (computeTrend q).map TrendPoint.date =
        distinctSortedDates (recordDates q) := by
      unfold computeTrend
      rw [List.map_map]
      show List.map (fun d => d) (distinctSortedDates (recordDates q)) =
        distinctSortedDates (recordDates q)
      exact List.map_id' _
    rw [hmap]
    exact sorted_distinctSortedDates _
  · have h1 : (computeTrend q).map TrendPoint.attempts =
        (distinctSortedDates (recordDates q)).map (fun d => (recordDates q).count d) := by
      unfold computeTrend
      rw [List.map_map]
      have hfun : (TrendPoint.attempts ∘ fun d =>
          ({ date := d
             attempts := q.countP (fun r => r.date == some d)
             booked := q.countP
               (fun r => r.date == some d && r.outcome == some Outcome.BOOKED) } :
            TrendPoint)) = (fun d => (recordDates q).count d) := by
        funext d
        exact countP_date_eq_count q d
      rw [hfun]
    rw [h1]
    rw [(perm_dedup_distinctSortedDates (recordDates q)).map
      (fun d => (recordDates q).count d) |>.sum_eq]
    rw [List.sum_map_count_dedup_eq_length]
    exact length_recordDates q

/-- C7: on an empty filtered collection every KPI takes its zero value:
recordCount 0, bookedCount 0, success rate 0, revenue 0, and
netRoi = -MONTHLY_FEE. -/
theorem C7_theorem : ∀ c : Cols,
    served_count ([] : List Record) = 0 ∧
    booked c [] = 0 ∧
    call_handling_pct c [] = 0 ∧
    recovered_revenue (booked c []) = 0 ∧
    net_roi (booked c []) = -MONTHLY_FEE := by
  intro c
  have hb : booked c [] = 0 := by
    cases hc : c.hasSuccess <;> simp [booked, hc]
  refine ⟨rfl, hb, ?_, ?_, ?_⟩
  · simp [call_handling_pct]
  · rw [hb]
    simp [recovered_revenue]
  · rw [hb]
    simp [net_roi, recovered_revenue]

/-- C8: applying the sidebar filter twice gives the same result as applying
it once — the filter is idempotent. -/
theorem C8_theorem : ∀ (c : Cols) (f : FilterSpec) (rs : List Record),
    applyFilter c f (applyFilter c f rs) = applyFilter c f rs := by
  intro c f rs
  unfold applyFilter
  induction rs with
  | nil => rfl
  | cons r rs ih =>
    cases hk : keepRecord c f r <;> simp [List.filter_cons, hk, ih]

/-- C9: bookedCount never exceeds recordCount, and in every trend point the
group's BOOKED count never exceeds the group size. -/
theorem C9_theorem : ∀ (c : Cols) (q : List Record),
    booked c q ≤ served_count q ∧
    ∀ p ∈ computeTrend q, p.booked ≤ p.attempts := by
  intro c q
  constructor
  · unfold booked served_count
    cases hc : c.hasSuccess
    · simp
    · simp only [if_pos rfl, if_true]
      exact List.countP_le_length _
  · intro p hp
    unfold computeTrend at hp
    rw [List.mem_map] at hp
    obtain ⟨d, hd, rfl⟩ := hp
    exact List.countP_mono_left (fun r hr hb => ((Bool.and_eq_true _ _).mp hb).1)

/-- C9 witness: the statement instantiated on a one-record collection whose
trend has the single point (7, 1, 1). -/
theorem C9_witness :
    booked colsSuccessOnly qOneBooked ≤ served_count qOneBooked ∧
    ptOneBooked.booked ≤ ptOneBooked.attempts :=
  ⟨(C9_theorem colsSuccessOnly qOneBooked).1,
    (C9_theorem colsSuccessOnly qOneBooked).2 ptOneBooked (by decide)⟩

/-- C10: the filtered output is a subsequence of the input — filtering only
removes whole records, keeps the survivors in their original relative order,
and leaves every retained record unchanged. -/
theorem C10_theorem : ∀ (c : Cols) (f : FilterSpec) (rs : List Record),
    List.Sublist (applyFilter c f rs) rs := by
  intro c f rs
  exact List.filter_sublist rs

end CallDash
